import Mathlib

/-!
Shallow embedding of the classification-and-validation core of the
`dotagent` repository (files `src/type-detector.ts` and `src/validators.ts`),
together with theorems settling the frozen claims about it.

Conventions of the embedding:
* JavaScript strings are Lean `String`s; all scanning is done on `String.data`
  (lists of characters) so that every operation is kernel-computable.
* JavaScript numbers are embedded as `Rat`; the decimal constants of the
  source (`0.15`, `0.3`, …) are written as exact rationals.
* `undefined`/missing fields are `Option.none`; JavaScript truthiness of a
  string (empty string is falsy) is the helper `optStrTruthy`.
* Thrown runtime errors (the source file `validators.ts` contains unresolved
  merge-conflict damage referencing the undefined identifiers `skill` and
  `subagent`) are embedded with `Except JsError`.
-/

/-- Boolean prefix test on character lists (`l₁` is a prefix of `l₂`). -/
def isPrefixB : List Char → List Char → Bool
  | [], _ => true
  | _ :: _, [] => false
  | a :: as, b :: bs => a == b && isPrefixB as bs

/-- Boolean substring test: does the list `l` contain `pat` as a contiguous
sublist?  Embeds JavaScript `String.prototype.includes`. -/
def containsSub (pat : List Char) : List Char → Bool
  | [] => pat.isEmpty
  | c :: rest => isPrefixB pat (c :: rest) || containsSub pat rest

/-- JavaScript `s.includes(pat)`. -/
def strIncludes (s pat : String) : Bool := containsSub pat.data s.data

/-- JavaScript `s.startsWith(pat)`. -/
def strStartsWith (s pat : String) : Bool := isPrefixB pat.data s.data

/-- JavaScript `s.toLowerCase()` (ASCII letters, which is all the source's
keyword tables use). -/
def lowerStr (s : String) : String := ⟨s.data.map Char.toLower⟩

/-- Count of leftmost non-overlapping occurrences of a nonempty pattern,
embedding `(s.match(new RegExp(keyword, 'g')) || []).length` for the plain
(regex-metacharacter-free) keywords of the source. -/
def countOccsGo (pat : List Char) : List Char → Nat
  | [] => 0
  | c :: rest =>
    if isPrefixB pat (c :: rest) then 1 + countOccsGo pat (rest.drop (pat.length - 1))
    else countOccsGo pat rest
termination_by l => l.length
decreasing_by
  · simp only [List.length_drop, List.length_cons]; omega
  · simp only [List.length_cons]; omega

/-- Occurrence count of `pat` in `s` (0 when `pat` is empty; the source never
matches an empty keyword). -/
def countOccs (s pat : String) : Nat :=
  if pat.data.isEmpty then 0 else countOccsGo pat.data s.data

/-- JavaScript truthiness of an optional string: present and nonempty. -/
def optStrTruthy : Option String → Bool
  | some s => s != ""
  | none => false

/-- The `scope` metadata field of the source has TypeScript type
`string | string[]`. -/
inductive ScopeVal where
  | str (s : String)
  | arr (l : List String)
deriving DecidableEq, Repr

/-- `Array.isArray(scope) ? scope : [scope]` from the source. -/
def ScopeVal.toList : ScopeVal → List String
  | .str s => [s]
  | .arr l => l

/-- JavaScript truthiness of the optional `scope` field: a string is truthy
iff nonempty, an array is always truthy. -/
def scopeTruthy : Option ScopeVal → Bool
  | some (.str s) => s != ""
  | some (.arr _) => true
  | none => false

/-- One declared command argument (`CommandMetadata.arguments` entries).
`required` is `none` when the field is absent or not a boolean, embedding the
source's `typeof arg.required !== 'boolean'` check. -/
structure CommandArgument where
  name : String
  argType : String
  required : Option Bool
deriving DecidableEq, Repr

/-- The open metadata map of a configuration document
(`RuleMetadata` and its `Skill/SubAgent/Command` extensions in
`src/adapters/base.ts`).  Optional fields are `Option`s; `type` is kept as a
raw string because the dispatcher must handle unknown declared types. -/
structure Metadata where
  id : String := ""
  alwaysApply : Option Bool := none
  scope : Option ScopeVal := none
  triggers : Option (List String) := none
  manual : Option Bool := none
  priority : Option String := none
  description : Option String := none
  type : Option String := none
  expertise : Option (List String) := none
  dependencies : Option (List String) := none
  portability : Option String := none
  examples : Option (List String) := none
  model : Option String := none
  tools : Option (List String) := none
  isolatedContext : Option Bool := none
  systemPrompt : Option String := none
  trigger : Option String := none
  userInvoked : Option Bool := none
  arguments : Option (List CommandArgument) := none
deriving DecidableEq, Repr

/-- A configuration document: metadata plus free-form content
(`RuleBlock` in the source, sans the optional position info). -/
structure RuleBlock where
  metadata : Metadata
  content : String
deriving DecidableEq, Repr

namespace TypeDetector

/-- `ContentAnalysis` of `src/type-detector.ts`; `keywordDensity` is the
JavaScript object embedded as an insertion-ordered association list. -/
structure ContentAnalysis where
  skillPatterns : List String
  subagentPatterns : List String
  commandPatterns : List String
  rulePatterns : List String
  structuralFeatures : List String
  keywordDensity : List (String × Nat)
deriving DecidableEq, Repr

/-- `MetadataAnalysis` of `src/type-detector.ts`. -/
structure MetadataAnalysis where
  explicitType : Option String := none
  typeHints : List String
  confidence : Rat
  conflictingSignals : List String
deriving DecidableEq, Repr

/-- `AbstractionTypeInfo` (classification result). -/
structure AbstractionTypeInfo where
  type : String
  confidence : Rat
  indicators : List String
deriving DecidableEq, Repr

/-- `SKILL_KEYWORDS` table. -/
def SKILL_KEYWORDS : List String :=
  ["how to", "pattern:", "example:", "best practice", "approach",
   "when working with", "technique", "method", "strategy",
   "remember", "consider", "note that", "keep in mind",
   "tip:", "guideline", "recommendation", "practice",
   "expertise", "knowledge", "understanding", "mastery"]

/-- `SUBAGENT_KEYWORDS` table. -/
def SUBAGENT_KEYWORDS : List String :=
  ["delegate to", "hand off", "sub-task", "subtask",
   "separate context", "independent", "isolated", "spawn",
   "claude-", "gpt-", "haiku", "sonnet", "model",
   "step 1:", "first", "then", "finally", "next",
   "procedure", "workflow", "process", "pipeline"]

/-- `COMMAND_KEYWORDS` table. -/
def COMMAND_KEYWORDS : List String :=
  ["run", "execute", "trigger", "invoke", "call",
   "command", "cli", "script", "tool",
   "when user types", "usage:", "syntax:",
   "argument", "parameter", "flag", "option"]

/-- `RULE_KEYWORDS` table. -/
def RULE_KEYWORDS : List String :=
  ["always", "every time", "consistently", "never",
   "you are", "your role is", "behave as", "act as",
   "should", "must", "avoid", "ensure", "require",
   "global", "universal", "default", "baseline"]

/-- JavaScript `\s` whitespace class (the characters relevant to the source's
multiline list/step regexes). -/
def isWsChar (c : Char) : Bool :=
  c == ' ' || c == '\t' || c == '\n' || c == '\r' || c == '\x0b' || c == '\x0c'

/-- ASCII decimal digit. -/
def isDigitB (c : Char) : Bool := '0' ≤ c && c ≤ '9'

/-- ASCII letter (`[a-zA-Z]`). -/
def isAlphaB (c : Char) : Bool := ('a' ≤ c && c ≤ 'z') || ('A' ≤ c && c ≤ 'Z')

/-- ASCII lowercase letter (`[a-z]`). -/
def isLowerAlphaB (c : Char) : Bool := 'a' ≤ c && c ≤ 'z'

/-- Does `p` hold of some suffix of the list (i.e. does the regex match at
some position)? -/
def anySuffix (p : List Char → Bool) : List Char → Bool
  | [] => p []
  | c :: rest => p (c :: rest) || anySuffix p rest

/-- Does `p` hold at some line start (position 0 or right after a line
terminator)?  Embeds a multiline `^`-anchored regex test. -/
def anyLineStart (p : List Char → Bool) (s : List Char) : Bool :=
  p s || go s
where
  /-- Scan for positions following a line terminator. -/
  go : List Char → Bool
    | [] => false
    | c :: rest => ((c == '\n' || c == '\r') && p rest) || go rest

/-- Match `\s*\d+\.\s+` at the head of the list (body of the source's
`numberedList` regex `/^\s*\d+\.\s+/m` at one line start). -/
def numberedItemAt (l : List Char) : Bool :=
  let l1 := l.dropWhile isWsChar
  let digits := l1.takeWhile isDigitB
  let l2 := l1.dropWhile isDigitB
  !digits.isEmpty &&
    (match l2 with
     | '.' :: l3 => (match l3 with | c :: _ => isWsChar c | [] => false)
     | _ => false)

/-- Match `\s*[-*]\s+` at the head of the list (body of the `bulletList`
regex `/^\s*[-*]\s+/m` at one line start). -/
def bulletItemAt (l : List Char) : Bool :=
  match l.dropWhile isWsChar with
  | c :: rest =>
    (c == '-' || c == '*') && (match rest with | d :: _ => isWsChar d | [] => false)
  | [] => false

/-- Test of the `slashCommand` regex `/\/[a-zA-Z][a-zA-Z0-9_-]*/`: the string
contains a `/` immediately followed by a letter (the trailing star can match
the empty string). -/
def slashCommandTest : List Char → Bool
  | [] => false
  | [_] => false
  | a :: b :: rest => (a == '/' && isAlphaB b) || slashCommandTest (b :: rest)

/-- The three-character fence used by the `codeBlock` regex. -/
def fenceChars : List Char := [Char.ofNat 96, Char.ofNat 96, Char.ofNat 96]

/-- Test of the `codeBlock` regex: a fence occurs and another fence occurs
after it. -/
def codeBlockTest : List Char → Bool
  | [] => false
  | c :: rest =>
    if isPrefixB fenceChars (c :: rest) then containsSub fenceChars ((c :: rest).drop 3)
    else codeBlockTest rest

/-- Match `step\s+\d` at the head of the (lowercased) list: the `step\s+\d+`
alternative of the `stepPattern` regex. -/
def stepNumberAt (l : List Char) : Bool :=
  isPrefixB "step".data l &&
    (let r := l.drop 4
     (match r with | c :: _ => isWsChar c | [] => false) &&
       (match r.dropWhile isWsChar with | d :: _ => isDigitB d | [] => false))

/-- Test of the case-insensitive `stepPattern` regex
`/(?:step\s+\d+|first|then|next|finally)/i` on the raw content. -/
def stepPatternTest (content : String) : Bool :=
  let low := (lowerStr content).data
  anySuffix stepNumberAt low || containsSub "first".data low ||
    containsSub "then".data low || containsSub "next".data low ||
    containsSub "finally".data low

/-- Test of the case-insensitive `examplePattern` regex
`/(?:example|e\.g\.|for instance)/i`. -/
def examplePatternTest (content : String) : Bool :=
  let low := (lowerStr content).data
  containsSub "example".data low || containsSub "e.g.".data low ||
    containsSub "for instance".data low

/-- Test of the case-insensitive `notePattern` regex
`/(?:note:|important:|remember:)/i`. -/
def notePatternTest (content : String) : Bool :=
  let low := (lowerStr content).data
  containsSub "note:".data low || containsSub "important:".data low ||
    containsSub "remember:".data low

/-- Test of the case-insensitive `procedurePattern` regex
`/(?:procedure|process|workflow|pipeline)/i`. -/
def procedurePatternTest (content : String) : Bool :=
  let low := (lowerStr content).data
  containsSub "procedure".data low || containsSub "process".data low ||
    containsSub "workflow".data low || containsSub "pipeline".data low

/-- One structural test, by the name used in `STRUCTURAL_PATTERNS`. -/
def structuralTest (content : String) (name : String) : Bool :=
  if name == "numberedList" then anyLineStart numberedItemAt content.data
  else if name == "bulletList" then anyLineStart bulletItemAt content.data
  else if name == "slashCommand" then slashCommandTest content.data
  else if name == "codeBlock" then codeBlockTest content.data
  else if name == "stepPattern" then stepPatternTest content
  else if name == "examplePattern" then examplePatternTest content
  else if name == "notePattern" then notePatternTest content
  else if name == "procedurePattern" then procedurePatternTest content
  else false

/-- The key order of `STRUCTURAL_PATTERNS` (`Object.entries` order). -/
def STRUCTURAL_PATTERN_NAMES : List String :=
  ["numberedList", "bulletList", "slashCommand", "codeBlock",
   "stepPattern", "examplePattern", "notePattern", "procedurePattern"]

/-- Insert-or-replace on the association list embedding a JavaScript object:
an existing key keeps its position, a fresh key is appended. -/
def kdSet (kd : List (String × Nat)) (k : String) (v : Nat) : List (String × Nat) :=
  match kd with
  | [] => [(k, v)]
  | (k0, v0) :: rest => if k0 == k then (k0, v) :: rest else (k0, v0) :: kdSet rest k v

/-- Association-list lookup (JavaScript property read). -/
def kdGet (kd : List (String × Nat)) (k : String) : Option Nat :=
  match kd with
  | [] => none
  | (k0, v0) :: rest => if k0 == k then some v0 else kdGet rest k

/-- Record every keyword of `keywords` present in `lower` into the density
map (one `forEach` loop of `analyzeRuleContent`). -/
def recordDensities (lower : String) (keywords : List String)
    (kd : List (String × Nat)) : List (String × Nat) :=
  keywords.foldl
    (fun kd k => if strIncludes lower k then kdSet kd k (countOccs lower k) else kd) kd

/-- `analyzeRuleContent` of `src/type-detector.ts`. -/
def analyzeRuleContent (content : String) : ContentAnalysis :=
  let lower := lowerStr content
  let skillPatterns := SKILL_KEYWORDS.filter (fun k => strIncludes lower k)
  let subagentPatterns := SUBAGENT_KEYWORDS.filter (fun k => strIncludes lower k)
  let commandPatterns := COMMAND_KEYWORDS.filter (fun k => strIncludes lower k)
  let rulePatterns := RULE_KEYWORDS.filter (fun k => strIncludes lower k)
  let kd := recordDensities lower SKILL_KEYWORDS []
  let kd := recordDensities lower SUBAGENT_KEYWORDS kd
  let kd := recordDensities lower COMMAND_KEYWORDS kd
  let kd := recordDensities lower RULE_KEYWORDS kd
  let structuralFeatures := STRUCTURAL_PATTERN_NAMES.filter (structuralTest content)
  let commandPatterns :=
    if slashCommandTest content.data then commandPatterns ++ ["slash command syntax"]
    else commandPatterns
  { skillPatterns := skillPatterns
    subagentPatterns := subagentPatterns
    commandPatterns := commandPatterns
    rulePatterns := rulePatterns
    structuralFeatures := structuralFeatures
    keywordDensity := kd }

/-- `metadata.triggers?.some(trigger => trigger.startsWith('/'))`. -/
def slashTriggerCond (md : Metadata) : Bool :=
  match md.triggers with
  | some ts => ts.any (fun t => strStartsWith t "/")
  | none => false

/-- `metadata.expertise && metadata.expertise.length > 0`. -/
def expertiseCond (md : Metadata) : Bool :=
  match md.expertise with
  | some l => decide (l.length > 0)
  | none => false

/-- `metadata.scope` is truthy and some scope entry contains `"command"` or
`"cli"`. -/
def scopeCond (md : Metadata) : Bool :=
  scopeTruthy md.scope &&
    (match md.scope with
     | some sv => sv.toList.any (fun s => strIncludes s "command" || strIncludes s "cli")
     | none => false)

/-- `analyzeMetadata` of `src/type-detector.ts`.  In the no-explicit-type
branch the five independent `if` blocks push their hints in source order and
raise the confidence by `Math.max`; this is rendered as an append chain and a
chain of conditional `max`es. -/
def analyzeMetadata (md : Metadata) : MetadataAnalysis :=
  if optStrTruthy md.type then
    let t := md.type.getD ""
    { explicitType := md.type
      typeHints := [s!"metadata.type: {t}"]
      confidence := 1
      conflictingSignals := [] }
  else
    let typeHints :=
      (if slashTriggerCond md then ["slash trigger in metadata"] else []) ++
      (if md.manual == some true then ["manual invocation flag"] else []) ++
      (if md.alwaysApply == some true then ["always apply flag suggests rule"] else []) ++
      (if expertiseCond md then ["expertise field suggests skill"] else []) ++
      (if scopeCond md then ["command-related scope"] else [])
    let c0 : Rat := 0
    let c1 := if slashTriggerCond md then max c0 (4/5) else c0
    let c2 := if md.manual == some true then max c1 (3/5) else c1
    let c3 := if md.alwaysApply == some true then max c2 (7/10) else c2
    let c4 := if expertiseCond md then max c3 (4/5) else c3
    let c5 := if scopeCond md then max c4 (3/5) else c4
    let conflictingSignals :=
      if md.alwaysApply == some true && md.manual == some true then
        ["conflicting alwaysApply and manual flags"]
      else []
    { explicitType := none
      typeHints := typeHints
      confidence := c5
      conflictingSignals := conflictingSignals }

/-- The per-category raw scores object of `calculateTypeScores`
(property order of the literal: skill, subagent, command, rule). -/
structure TypeScores where
  skill : Rat
  subagent : Rat
  command : Rat
  rule : Rat
deriving DecidableEq, Repr

/-- `Math.max(...Object.values(scores))`. -/
def TypeScores.maxScore (s : TypeScores) : Rat :=
  max (max (max s.skill s.subagent) s.command) s.rule

/-- `keywordDensity[pattern] || 1` (JavaScript `||` turns `undefined` and `0`
into `1`). -/
def densityOr1 (kd : List (String × Nat)) (p : String) : Nat :=
  match kdGet kd p with
  | some n => if n = 0 then 1 else n
  | none => 1

/-- `calculateContentScore` of `src/type-detector.ts`. -/
def calculateContentScore (patterns : List String) (kd : List (String × Nat)) : Rat :=
  if patterns.isEmpty then 0
  else
    let score := min ((patterns.length : Rat) * (15/100)) (7/10)
    let totalDensity : Nat := patterns.foldl (fun sum p => sum + densityOr1 kd p) 0
    let densityBoost := min ((totalDensity : Rat) * (5/100)) (3/10)
    min (score + densityBoost) 1

/-- The base content scores of `calculateTypeScores` (lines assigning
`scores.skill` through `scores.rule`). -/
def baseScores (ca : ContentAnalysis) : TypeScores :=
  { skill := calculateContentScore ca.skillPatterns ca.keywordDensity
    subagent := calculateContentScore ca.subagentPatterns ca.keywordDensity
    command := calculateContentScore ca.commandPatterns ca.keywordDensity
    rule := calculateContentScore ca.rulePatterns ca.keywordDensity }

/-- The structural-feature boosts of `calculateTypeScores`. -/
def structuralBoost (ca : ContentAnalysis) (s : TypeScores) : TypeScores :=
  let s := if ca.structuralFeatures.contains "slashCommand" then
    { s with command := s.command + 2/5 } else s
  let s := if ca.structuralFeatures.contains "stepPattern" ||
      ca.structuralFeatures.contains "procedurePattern" then
    { s with subagent := s.subagent + 3/10 } else s
  let s := if ca.structuralFeatures.contains "examplePattern" ||
      ca.structuralFeatures.contains "notePattern" then
    { s with skill := s.skill + 1/5 } else s
  let s := if ca.structuralFeatures.contains "numberedList" then
    { s with subagent := s.subagent + 1/5 } else s
  s

/-- The metadata-analysis influence of `calculateTypeScores`: a boost of
`metadataConfidence * 0.3` routed by substring tests on the hint strings
(`expertise` → skill, `trigger` → command, `manual` → half boost to command,
`always apply` → rule). -/
def metadataBoost (ma : MetadataAnalysis) (s : TypeScores) : TypeScores :=
  let boost := ma.confidence * (3/10)
  let s := if ma.typeHints.any (fun h => strIncludes h "expertise") then
    { s with skill := s.skill + boost } else s
  let s := if ma.typeHints.any (fun h => strIncludes h "trigger") then
    { s with command := s.command + boost } else s
  let s := if ma.typeHints.any (fun h => strIncludes h "manual") then
    { s with command := s.command + boost * (1/2) } else s
  let s := if ma.typeHints.any (fun h => strIncludes h "always apply") then
    { s with rule := s.rule + boost } else s
  s

/-- The raw (pre-normalization) scores of `calculateTypeScores`: content
base scores, then structural boosts, then metadata boosts. -/
def rawTypeScores (ca : ContentAnalysis) (ma : MetadataAnalysis) : TypeScores :=
  metadataBoost ma (structuralBoost ca (baseScores ca))

/-- The normalization step of `calculateTypeScores`: divide by the maximum
raw score (capped at 1); skipped when the maximum is not positive. -/
def normalizeScores (s : TypeScores) : TypeScores :=
  let maxRawScore := s.maxScore
  if 0 < maxRawScore then
    { skill := min (s.skill / maxRawScore) 1
      subagent := min (s.subagent / maxRawScore) 1
      command := min (s.command / maxRawScore) 1
      rule := min (s.rule / maxRawScore) 1 }
  else s

/-- `calculateTypeScores` of `src/type-detector.ts`: raw scores, normalize,
then the unconditional floor `scores.rule = Math.max(scores.rule, 0.3)`. -/
def calculateTypeScores (ca : ContentAnalysis) (ma : MetadataAnalysis) : TypeScores :=
  let s := normalizeScores (rawTypeScores ca ma)
  { s with rule := max s.rule (3/10) }

/-- `Object.keys(scores).find(type => scores[type] === maxScore)`:
the first of skill, subagent, command, rule whose score equals the maximum
(`Math.max` of the four always equals one of them, so `find` succeeds and
the final branch is `rule`). -/
def findMaxType (s : TypeScores) (maxScore : Rat) : String :=
  if s.skill == maxScore then "skill"
  else if s.subagent == maxScore then "subagent"
  else if s.command == maxScore then "command"
  else "rule"

/-- `gatherIndicators` of `src/type-detector.ts`. -/
def gatherIndicators (detectedType : String) (ca : ContentAnalysis)
    (ma : MetadataAnalysis) : List String :=
  let indicators :=
    if detectedType == "skill" then
      (ca.skillPatterns.take 3).map (fun p => s!"skill pattern: {p}")
    else if detectedType == "subagent" then
      (ca.subagentPatterns.take 3).map (fun p => s!"subagent pattern: {p}")
    else if detectedType == "command" then
      (ca.commandPatterns.take 3).map (fun p => s!"command pattern: {p}")
    else if detectedType == "rule" then
      (ca.rulePatterns.take 3).map (fun p => s!"rule pattern: {p}")
    else []
  let relevantStructural := ca.structuralFeatures.filter (fun feature =>
    if detectedType == "command" then feature == "slashCommand"
    else if detectedType == "subagent" then
      ["stepPattern", "procedurePattern", "numberedList"].contains feature
    else if detectedType == "skill" then
      ["examplePattern", "notePattern"].contains feature
    else false)
  let indicators := indicators ++ relevantStructural.map (fun f => s!"structural: {f}")
  let indicators := indicators ++ ma.typeHints.take 2
  indicators.take 5

/-- `detectAbstractionType` of `src/type-detector.ts`. -/
def detectAbstractionType (rule : RuleBlock) : AbstractionTypeInfo :=
  let metadataAnalysis := analyzeMetadata rule.metadata
  if optStrTruthy metadataAnalysis.explicitType && metadataAnalysis.confidence > 9/10 then
    let t := metadataAnalysis.explicitType.getD ""
    { type := t
      confidence := metadataAnalysis.confidence
      indicators := s!"explicit type: {t}" :: metadataAnalysis.typeHints }
  else
    let contentAnalysis := analyzeRuleContent rule.content
    let scores := calculateTypeScores contentAnalysis metadataAnalysis
    let maxScore := scores.maxScore
    let detectedType := findMaxType scores maxScore
    let indicators := gatherIndicators detectedType contentAnalysis metadataAnalysis
    let finalConfidence := if detectedType == "rule" then max maxScore (1/2) else maxScore
    { type := detectedType
      confidence := finalConfidence
      indicators := indicators }

end TypeDetector

/-- A runtime fault of the JavaScript source.  The merge-conflict-damaged
`validators.ts` evaluates the undefined identifiers `skill`
(`validateSubAgent`, line 351) and `subagent` (`validateCommand`, line 390),
which at run time raises `ReferenceError: <name> is not defined`. -/
inductive JsError where
  | referenceError (name : String)
deriving DecidableEq, Repr

/-- `ValidationError` / `ValidationWarning` of `src/validators.ts` (the two
interfaces are structurally identical). -/
structure ValidationIssue where
  code : String
  message : String
  field : Option String := none
  severity : String
deriving DecidableEq, Repr

/-- `ValidationSuggestion` of `src/validators.ts`. -/
structure ValidationSuggestion where
  code : String
  message : String
  field : Option String := none
  actionable : Bool
deriving DecidableEq, Repr

/-- `ValidationResult` of `src/validators.ts`. -/
structure ValidationResult where
  valid : Bool
  errors : List ValidationIssue
  warnings : List ValidationIssue
  suggestions : List ValidationSuggestion
deriving DecidableEq, Repr

namespace Validators

open TypeDetector

/-- `VALID_MODELS` allow-list. -/
def VALID_MODELS : List String :=
  ["claude-3-5-sonnet", "claude-3-haiku", "gpt-4", "gpt-3.5-turbo"]

/-- `VALID_PORTABILITY` allow-list. -/
def VALID_PORTABILITY : List String := ["cross-tool", "claude-only"]

/-- `KNOWN_TOOLS` allow-list. -/
def KNOWN_TOOLS : List String :=
  ["bash", "python", "node", "git", "docker", "typescript", "jest", "webpack", "eslint"]

/-- Embedding of `new RegExp("/[a-z]").test(lowerContent)`: the content
contains a `/` immediately followed by a lowercase letter. -/
def regexSlashLowerTest : List Char → Bool
  | [] => false
  | [_] => false
  | a :: b :: rest => (a == '/' && isLowerAlphaB b) || regexSlashLowerTest (b :: rest)

/-- One entry of `validateSkill`'s trigger-pattern scan: a pattern starting
with `/` is compiled as a regex (the only such entry in the source table is
`"/[a-z]"`, embedded by `regexSlashLowerTest`), any other entry is a plain
substring test. -/
def skillTriggerPatternTest (lowerContent pattern : String) : Bool :=
  if strStartsWith pattern "/" then regexSlashLowerTest lowerContent.data
  else strIncludes lowerContent pattern

/-- `validateSkill` of `src/validators.ts`. -/
def validateSkill (metadata : Metadata) (content : String) : ValidationResult :=
  let errors : List ValidationIssue := []
  let errors :=
    if metadata.expertise.isNone then
      errors ++ [{ code := "SKILL_MISSING_EXPERTISE",
                   message := "Skills must have an expertise field",
                   field := some "expertise", severity := "error" }]
    else if (metadata.expertise.getD []).length == 0 then
      errors ++ [{ code := "SKILL_EMPTY_EXPERTISE",
                   message := "Skills must have at least one area of expertise",
                   field := some "expertise", severity := "error" }]
    else errors
  let errors :=
    if optStrTruthy metadata.portability &&
        !VALID_PORTABILITY.contains (metadata.portability.getD "") then
      errors ++ [{ code := "SKILL_INVALID_PORTABILITY",
                   message := "Invalid portability value. Must be one of: cross-tool, claude-only",
                   field := some "portability", severity := "error" }]
    else errors
  let lowerContent := lowerStr content
  let knowledgePatterns : List String :=
    ["how to", "best practice", "pattern:", "example:", "technique",
     "approach", "method", "strategy", "remember", "consider",
     "tip:", "guideline", "recommendation"]
  let hasKnowledgePattern := knowledgePatterns.any (fun p => strIncludes lowerContent p)
  let warnings : List ValidationIssue :=
    if !hasKnowledgePattern then
      [{ code := "SKILL_MISSING_KNOWLEDGE",
         message := "Skills should contain knowledge or guidance patterns (e.g., \x22how to\x22, \x22best practice\x22, \x22example\x22)",
         severity := "warning" }]
    else []
  let isolationPatterns : List String :=
    ["delegate to", "hand off", "separate context", "independent",
     "isolated", "spawn", "subprocess"]
  let hasIsolationPattern := isolationPatterns.any (fun p => strIncludes lowerContent p)
  let errors :=
    if hasIsolationPattern then
      errors ++ [{ code := "SKILL_ISOLATION_PATTERN",
                   message := "Skills should not use isolation or delegation patterns. Consider using a SubAgent instead.",
                   severity := "error" }]
    else errors
  let triggerPatterns : List String := ["when user types", "/[a-z]", "trigger:", "command:"]
  let hasTriggerPattern := triggerPatterns.any (skillTriggerPatternTest lowerContent)
  let errors :=
    if hasTriggerPattern then
      errors ++ [{ code := "SKILL_TRIGGER_PATTERN",
                   message := "Skills should not define triggers or commands. Consider using a Command instead.",
                   severity := "error" }]
    else errors
  let suggestions : List ValidationSuggestion := []
  let suggestions :=
    if metadata.expertise.isSome && (metadata.expertise.getD []).length == 1 then
      suggestions ++ [{ code := "SKILL_CATEGORIZE_EXPERTISE",
                        message := "Consider categorizing expertise into more specific areas for better discoverability",
                        field := some "expertise", actionable := true }]
    else suggestions
  let suggestions :=
    if metadata.examples.isNone || (metadata.examples.getD []).length == 0 then
      suggestions ++ [{ code := "SKILL_ADD_EXAMPLES",
                        message := "Consider adding usage examples to help users understand when to apply this skill",
                        field := some "examples", actionable := true }]
    else suggestions
  let suggestions :=
    if !optStrTruthy metadata.portability then
      suggestions ++ [{ code := "SKILL_SPECIFY_PORTABILITY",
                        message := "Consider specifying portability to clarify tool compatibility",
                        field := some "portability", actionable := true }]
    else suggestions
  { valid := errors.length == 0, errors := errors, warnings := warnings,
    suggestions := suggestions }

/-- `validateSubAgent` of `src/validators.ts`.  The final suggestion block of
the source reads `if (metadata.tools && metadata.tools.length > 5) { … } else
if (skill.description.length > …)`, where `skill` is an undefined identifier
left behind by an unresolved merge; evaluating that `else if` condition
throws a `ReferenceError`, so the function only returns normally when more
than five tools are declared. -/
def validateSubAgent (metadata : Metadata) (content : String) :
    Except JsError ValidationResult :=
  let errors : List ValidationIssue := []
  let errors :=
    if metadata.isolatedContext.isNone then
      errors ++ [{ code := "SUBAGENT_MISSING_ISOLATION",
                   message := "SubAgents must have isolatedContext field",
                   field := some "isolatedContext", severity := "error" }]
    else if metadata.isolatedContext != some true then
      errors ++ [{ code := "SUBAGENT_FALSE_ISOLATION",
                   message := "SubAgents must have isolatedContext set to true",
                   field := some "isolatedContext", severity := "error" }]
    else errors
  let errors :=
    if optStrTruthy metadata.model && !VALID_MODELS.contains (metadata.model.getD "") then
      errors ++ [{ code := "SUBAGENT_INVALID_MODEL",
                   message := "Invalid model. Must be one of: claude-3-5-sonnet, claude-3-haiku, gpt-4, gpt-3.5-turbo",
                   field := some "model", severity := "error" }]
    else errors
  let invalidTools := (metadata.tools.getD []).filter (fun t => !KNOWN_TOOLS.contains t)
  let warnings : List ValidationIssue :=
    if metadata.tools.isSome && invalidTools.length > 0 then
      let joined := String.intercalate ", " invalidTools
      [{ code := "SUBAGENT_INVALID_TOOLS",
         message := s!"Unknown tools: {joined}. Verify these are valid tool names.",
         field := some "tools", severity := "warning" }]
    else []
  let lowerContent := lowerStr content
  let proceduralPatterns : List String :=
    ["step 1:", "step 2:", "first", "then", "next", "finally",
     "procedure", "workflow", "process", "pipeline", "delegate",
     "hand off", "sub-task", "subtask"]
  let hasProceduralPattern := proceduralPatterns.any (fun p => strIncludes lowerContent p)
  let warnings :=
    if !hasProceduralPattern then
      warnings ++ [{ code := "SUBAGENT_MISSING_PROCEDURAL",
                     message := "SubAgents should contain procedural or task-oriented patterns",
                     severity := "warning" }]
    else warnings
  let errors :=
    if metadata.alwaysApply == some true then
      errors ++ [{ code := "SUBAGENT_RULE_CONFLICT",
                   message := "SubAgents should not use alwaysApply flag. This conflicts with isolated context.",
                   field := some "alwaysApply", severity := "error" }]
    else errors
  let suggestions : List ValidationSuggestion := []
  let suggestions :=
    if !optStrTruthy metadata.model then
      suggestions ++ [{ code := "SUBAGENT_SPECIFY_MODEL",
                        message := "Consider specifying a model for better performance optimization",
                        field := some "model", actionable := true }]
    else if metadata.model == some "claude-3-haiku" then
      suggestions ++ [{ code := "SUBAGENT_HAIKU_USAGE",
                        message := "Consider using Haiku for simple, fast tasks and Sonnet for complex reasoning",
                        field := some "model", actionable := false }]
    else suggestions
  let suggestions :=
    if !optStrTruthy metadata.systemPrompt then
      suggestions ++ [{ code := "SUBAGENT_ADD_SYSTEM_PROMPT",
                        message := "Consider adding a system prompt to better define the subagent\x27s role",
                        field := some "systemPrompt", actionable := true }]
    else suggestions
  if (metadata.tools.getD []).length > 5 then
    let suggestions :=
      suggestions ++ [{ code := "SUBAGENT_TOO_MANY_TOOLS",
                        message := "Consider reducing tool scope for better focus and performance",
                        field := some "tools", actionable := true }]
    .ok { valid := errors.length == 0, errors := errors, warnings := warnings,
          suggestions := suggestions }
  else
    .error (.referenceError "skill")

/-- The anchored trigger regex `/^\/[a-zA-Z][a-zA-Z0-9_-]*$/`. -/
def triggerRegexTest (t : String) : Bool :=
  match t.data with
  | '/' :: c :: rest =>
    isAlphaB c && rest.all (fun d => isAlphaB d || isDigitB d || d == '_' || d == '-')
  | _ => false

/-- The per-argument checks of `validateCommand` (`metadata.arguments.forEach`). -/
def validateCommandArgs (args : List CommandArgument) : List ValidationIssue :=
  let validArgTypes : List String := ["string", "number", "boolean", "file"]
  args.enum.foldl (fun errs entry =>
    let idx := entry.1
    let arg := entry.2
    let errs :=
      if arg.name == "" then
        errs ++ [{ code := "COMMAND_INVALID_ARGUMENTS",
                   message := s!"Argument at index {idx} must have a name",
                   field := some s!"arguments.{idx}.name", severity := "error" }]
      else errs
    let errs :=
      if !validArgTypes.contains arg.argType then
        let t := arg.argType
        errs ++ [{ code := "COMMAND_INVALID_ARGUMENTS",
                   message := s!"Invalid argument type \x22{t}\x22. Must be one of: string, number, boolean, file",
                   field := some s!"arguments.{idx}.type", severity := "error" }]
      else errs
    let errs :=
      if arg.required.isNone then
        errs ++ [{ code := "COMMAND_INVALID_ARGUMENTS",
                   message := "Argument required field must be boolean",
                   field := some s!"arguments.{idx}.required", severity := "error" }]
      else errs
    errs) []

/-- `validateCommand` of `src/validators.ts`.  Its first `if`/`else if`
chain was merge-damaged: when the trigger is present and starts with `/`,
the third branch evaluates `subagent.name` where `subagent` is an undefined
identifier, throwing a `ReferenceError`; so the function only returns
normally when the trigger is missing, empty, or does not start with `/`. -/
def validateCommand (metadata : Metadata) (content : String) :
    Except JsError ValidationResult :=
  if optStrTruthy metadata.trigger && strStartsWith (metadata.trigger.getD "") "/" then
    .error (.referenceError "subagent")
  else
    let errors : List ValidationIssue :=
      if !optStrTruthy metadata.trigger then
        [{ code := "COMMAND_MISSING_TRIGGER",
           message := "Commands must have a trigger field",
           field := some "trigger", severity := "error" }]
      else
        [{ code := "COMMAND_INVALID_TRIGGER",
           message := "Command triggers must start with \x22/\x22",
           field := some "trigger", severity := "error" }]
    let errors :=
      if metadata.userInvoked.isNone then
        errors ++ [{ code := "COMMAND_MISSING_USER_INVOKED",
                     message := "Commands must have userInvoked field",
                     field := some "userInvoked", severity := "error" }]
      else if metadata.userInvoked != some true then
        errors ++ [{ code := "COMMAND_FALSE_USER_INVOKED",
                     message := "Commands must have userInvoked set to true",
                     field := some "userInvoked", severity := "error" }]
      else errors
    let errors :=
      if optStrTruthy metadata.trigger && !triggerRegexTest (metadata.trigger.getD "") then
        errors ++ [{ code := "COMMAND_INVALID_TRIGGER",
                     message := "Command trigger must be a valid slash command (e.g., /build, /test)",
                     field := some "trigger", severity := "error" }]
      else errors
    let errors :=
      if metadata.arguments.isSome then
        errors ++ validateCommandArgs (metadata.arguments.getD [])
      else errors
    let lowerContent := lowerStr content
    let instructionPatterns : List String :=
      ["run", "execute", "trigger", "invoke", "call",
       "usage:", "syntax:", "when user types", "command"]
    let hasInstructionPattern := instructionPatterns.any (fun p => strIncludes lowerContent p)
    let warnings : List ValidationIssue :=
      if !hasInstructionPattern then
        [{ code := "COMMAND_MISSING_INSTRUCTIONS",
           message := "Commands should contain executable instructions or usage guidance",
           severity := "warning" }]
      else []
    let alwaysPatterns : List String :=
      ["always apply", "every time", "consistently", "baseline", "global"]
    let hasAlwaysPattern := alwaysPatterns.any (fun p => strIncludes lowerContent p)
    let errors :=
      if hasAlwaysPattern || metadata.alwaysApply == some true then
        errors ++ [{ code := "COMMAND_ALWAYS_APPLY_PATTERN",
                     message := "Commands should not use always-apply patterns. They are user-invoked only.",
                     severity := "error" }]
      else errors
    let suggestions : List ValidationSuggestion := []
    let suggestions :=
      if metadata.arguments.isNone || (metadata.arguments.getD []).length == 0 then
        suggestions ++ [{ code := "COMMAND_ADD_ARGUMENTS",
                          message := "Consider defining arguments structure for better usability",
                          field := some "arguments", actionable := true }]
      else suggestions
    let suggestions :=
      if !strIncludes content "usage:" && !strIncludes content "example:" then
        suggestions ++ [{ code := "COMMAND_ADD_USAGE_EXAMPLE",
                          message := "Consider adding usage examples to help users understand how to invoke the command",
                          actionable := true }]
      else suggestions
    let suggestions :=
      if (metadata.arguments.getD []).any (fun a => a.required == some false) &&
          !strIncludes content "optional" then
        suggestions ++ [{ code := "COMMAND_DOCUMENT_OPTIONAL_ARGS",
                          message := "Consider documenting optional arguments in the command description",
                          actionable := true }]
      else suggestions
    .ok { valid := errors.length == 0, errors := errors, warnings := warnings,
          suggestions := suggestions }

/-- `validateRule` of `src/validators.ts`. -/
def validateRule (metadata : Metadata) (content : String) : ValidationResult :=
  let errors : List ValidationIssue := []
  let invalidScopes :=
    ((metadata.scope.map ScopeVal.toList).getD []).filter (fun s => s.trim == "")
  let errors :=
    if scopeTruthy metadata.scope && invalidScopes.length > 0 then
      errors ++ [{ code := "RULE_INVALID_SCOPE",
                   message := "Rule scopes must be non-empty strings",
                   field := some "scope", severity := "error" }]
    else errors
  let errors :=
    if content == "" || content.trim == "" then
      errors ++ [{ code := "RULE_MISSING_CONTENT",
                   message := "Rules must have content",
                   severity := "error" }]
    else errors
  let lowerContent := lowerStr content
  let rulePatterns : List String :=
    ["always", "never", "should", "must", "avoid", "ensure",
     "you are", "your role is", "behave as", "act as",
     "consistently", "require", "policy", "guideline"]
  let hasRulePattern := rulePatterns.any (fun p => strIncludes lowerContent p)
  let suggestions : List ValidationSuggestion := []
  let suggestions :=
    if !hasRulePattern then
      suggestions ++ [{ code := "RULE_ADD_GUIDELINES",
                        message := "Consider adding clear guidelines or constraints for better rule effectiveness",
                        actionable := true }]
    else suggestions
  let suggestions :=
    if !optStrTruthy metadata.priority then
      suggestions ++ [{ code := "RULE_ADD_PRIORITY",
                        message := "Consider adding priority level for better rule ordering",
                        field := some "priority", actionable := true }]
    else suggestions
  let suggestions :=
    if !optStrTruthy metadata.description then
      suggestions ++ [{ code := "RULE_ADD_DESCRIPTION",
                        message := "Consider adding description for better documentation",
                        field := some "description", actionable := true }]
    else suggestions
  let suggestions :=
    if metadata.alwaysApply.isNone then
      suggestions ++ [{ code := "RULE_SPECIFY_ALWAYS_APPLY",
                        message := "Consider explicitly setting alwaysApply to clarify rule application",
                        field := some "alwaysApply", actionable := true }]
    else suggestions
  { valid := errors.length == 0, errors := errors, warnings := [],
    suggestions := suggestions }

/-- `routeToSpecificValidator` of `src/validators.ts`.  Note the source has
no `try`/`catch`: a `ReferenceError` thrown inside a delegated validator
propagates to the caller. -/
def routeToSpecificValidator (type : String) (metadata : Metadata) (content : String) :
    Except JsError ValidationResult :=
  if type == "skill" then .ok (validateSkill metadata content)
  else if type == "subagent" then validateSubAgent metadata content
  else if type == "command" then validateCommand metadata content
  else if type == "rule" then .ok (validateRule metadata content)
  else
    .ok { valid := false,
          errors := [{ code := "UNKNOWN_TYPE",
                       message := s!"Unknown abstraction type: {type}",
                       field := some "type", severity := "error" }],
          warnings := [], suggestions := [] }

/-- `validateAnyAbstraction` of `src/validators.ts`. -/
def validateAnyAbstraction (metadata : Option Metadata) (content : Option String) :
    Except JsError ValidationResult :=
  match metadata with
  | none =>
    .ok { valid := false,
          errors := [{ code := "MISSING_REQUIRED_FIELD",
                       message := "Metadata is required for validation",
                       severity := "error" }],
          warnings := [], suggestions := [] }
  | some md =>
    match content with
    | none =>
      .ok { valid := false,
            errors := [{ code := "MISSING_REQUIRED_FIELD",
                         message := "Content is required for validation",
                         severity := "error" }],
            warnings := [], suggestions := [] }
    | some c =>
      let detectedType :=
        if optStrTruthy md.type then md.type.getD ""
        else (detectAbstractionType { metadata := md, content := c }).type
      match routeToSpecificValidator detectedType md c with
      | .error e => .error e
      | .ok result =>
        if optStrTruthy md.type then
          let mdWithoutType := { md with type := none }
          let typeInfo := detectAbstractionType { metadata := mdWithoutType, content := c }
          let declared := md.type.getD ""
          if typeInfo.type != declared && typeInfo.confidence > 7/10 then
            let suggested := typeInfo.type
            .ok { result with warnings := result.warnings ++
              [{ code := "ABSTRACTION_TYPE_MISMATCH",
                 message := s!"Content suggests \x22{suggested}\x22 but metadata specifies \x22{declared}\x22. Consider reviewing the type or content.",
                 field := some "type", severity := "warning" }] }
          else .ok result
        else .ok result

/-- `combineValidationResults` of `src/validators.ts`. -/
def combineValidationResults (results : List ValidationResult) : ValidationResult :=
  results.foldl
    (fun combined result =>
      { valid := if !result.valid then false else combined.valid
        errors := combined.errors ++ result.errors
        warnings := combined.warnings ++ result.warnings
        suggestions := combined.suggestions ++ result.suggestions })
    { valid := true, errors := [], warnings := [], suggestions := [] }

/-- `Map.prototype.set` on an insertion-ordered association list: an
existing key keeps its position and receives the new value, a fresh key is
appended. -/
def alistSet {α : Type} (m : List (String × α)) (k : String) (v : α) :
    List (String × α) :=
  match m with
  | [] => [(k, v)]
  | (k0, v0) :: rest => if k0 == k then (k0, v) :: rest else (k0, v0) :: alistSet rest k v

/-- `Map.prototype.get`. -/
def alistGet {α : Type} (m : List (String × α)) (k : String) : Option α :=
  match m with
  | [] => none
  | (k0, v0) :: rest => if k0 == k then some v0 else alistGet rest k

/-- The `COMMAND_TRIGGER_CONFLICT` message template of
`validateAbstractionGroup`: it names the shared trigger and the id of the
command that first claimed it (and nothing else). -/
def triggerConflictMessage (t existingId : String) : String :=
  s!"Trigger \x22{t}\x22 conflicts with command \x22{existingId}\x22"

/-- Accumulator of the single `abstractions.forEach` pass of
`validateAbstractionGroup`: trigger-conflict errors, the `trigger → id`
command index, and the `id → dependencies` adjacency map. -/
structure GroupScanState where
  errors : List ValidationIssue
  commandTriggers : List (String × String)
  dependencyGraph : List (String × List String)
deriving Repr

/-- One iteration of the first `forEach` pass of
`validateAbstractionGroup`: record the document's dependencies in the
adjacency map and, for a command with a truthy trigger, either report a
`COMMAND_TRIGGER_CONFLICT` against the id that already claimed the trigger
or claim it.  The source's `if (existingId)` is a JavaScript truthiness
test: an absent entry and an entry registered under the empty-string id are
both falsy, so either one silently (re-)registers the trigger instead of
reporting a conflict — `optStrTruthy` embeds exactly that. -/
def groupScanStep (st : GroupScanState) (ab : RuleBlock) : GroupScanState :=
  let md := ab.metadata
  let st :=
    if md.dependencies.isSome then
      { st with dependencyGraph :=
          alistSet st.dependencyGraph md.id (md.dependencies.getD []) }
    else st
  if md.type == some "command" && optStrTruthy md.trigger then
    let t := md.trigger.getD ""
    let existingId := alistGet st.commandTriggers t
    if optStrTruthy existingId then
      { st with errors := st.errors ++
          [{ code := "COMMAND_TRIGGER_CONFLICT",
             message := triggerConflictMessage t (existingId.getD ""),
             field := some "trigger", severity := "error" }] }
    else
      { st with commandTriggers := alistSet st.commandTriggers t md.id }
  else st

/-- The first `forEach` pass of `validateAbstractionGroup`: build the
dependency graph and the command-trigger index, reporting
`COMMAND_TRIGGER_CONFLICT` when a trigger is already claimed. -/
def groupScan (abstractions : List RuleBlock) : GroupScanState :=
  abstractions.foldl groupScanStep
    { errors := [], commandTriggers := [], dependencyGraph := [] }

/-- Upper bound on the number of nodes the cycle DFS can ever enter
(map keys plus all dependency entries). -/
def graphSize (graph : List (String × List String)) : Nat :=
  graph.foldl (fun a p => a + 1 + p.2.length) 0

/-- Fuel that dominates the DFS call-tree depth for `graph` (the recursion
of the source terminates because `visited` only grows; the fuel is a
termination device of the embedding, never exhausted on real runs). -/
def dfsFuel (graph : List (String × List String)) : Nat :=
  (graphSize graph + 1) * (graphSize graph + 1)

/-- `hasCircularDependency` of `validateAbstractionGroup`, applied to a
worklist of sibling nodes: a node on the recursion stack signals a cycle, a
visited node is skipped, otherwise the node is entered (pushed on both sets)
and its dependencies are traversed; on a cycle-free return the recursion
stack entry is dropped and the accumulated `visited` set is kept. -/
def dfsGo (graph : List (String × List String)) :
    Nat → List String → List String → List String → Bool × List String
  | 0, visited, _, _ => (false, visited)
  | _ + 1, visited, _, [] => (false, visited)
  | fuel + 1, visited, recStack, node :: rest =>
    if recStack.contains node then (true, visited)
    else if visited.contains node then dfsGo graph fuel visited recStack rest
    else
      let deps := (alistGet graph node).getD []
      let res := dfsGo graph fuel (node :: visited) (node :: recStack) deps
      if res.1 then (true, res.2)
      else dfsGo graph fuel res.2 recStack rest

/-- The `for (const [nodeId] of dependencyGraph)` loop of
`validateAbstractionGroup`: run the DFS from each key in insertion order
(sharing the `visited` set across iterations) and stop at the first node
from which a cycle is found (`break`: only one report per batch). -/
def findCycleNode (graph : List (String × List String)) :
    List (String × List String) → List String → Option String
  | [], _ => none
  | (nodeId, _) :: rest, visited =>
    let res := dfsGo graph (dfsFuel graph) visited [] [nodeId]
    if res.1 then some nodeId else findCycleNode graph rest res.2

/-- The dangling-reference check of `validateAbstractionGroup`: one
`INVALID_DEPENDENCY` error per graph node with any dependency id outside the
batch, listing that node's invalid ids. -/
def invalidDepStep (allIds : List String) (errs : List ValidationIssue)
    (p : String × List String) : List ValidationIssue :=
  let invalidDeps := p.2.filter (fun d => !allIds.contains d)
  if invalidDeps.length > 0 then
    let n := p.1
    let joined := String.intercalate ", " invalidDeps
    errs ++ [{ code := "INVALID_DEPENDENCY",
               message := s!"Invalid dependencies in \x22{n}\x22: {joined}",
               field := some "dependencies", severity := "error" }]
  else errs

/-- The dangling-reference loop of `validateAbstractionGroup`. -/
def invalidDepErrors (graph : List (String × List String)) (allIds : List String) :
    List ValidationIssue :=
  graph.foldl (invalidDepStep allIds) []

/-- The scope-overlap warnings of `validateAbstractionGroup` among
always-apply rule documents (default scope `"global"` when the scope field
is falsy). -/
def scopeWarnings (abstractions : List RuleBlock) : List ValidationIssue :=
  let alwaysApplyRules := abstractions.filter
    (fun ab => ab.metadata.alwaysApply == some true && ab.metadata.type == some "rule")
  if alwaysApplyRules.length > 1 then
    let overlappingScopes :=
      alwaysApplyRules.foldl
        (fun m ab =>
          let scopes :=
            if scopeTruthy ab.metadata.scope then
              ((ab.metadata.scope.map ScopeVal.toList).getD [])
            else ["global"]
          scopes.foldl
            (fun m scope =>
              match alistGet m scope with
              | some ids => alistSet m scope (ids ++ [ab.metadata.id])
              | none => m ++ [(scope, [ab.metadata.id])])
            m)
        ([] : List (String × List String))
    overlappingScopes.foldl
      (fun ws p =>
        if p.2.length > 1 then
          let sc := p.1
          let joined := String.intercalate ", " p.2
          ws ++ [{ code := "RULE_SCOPE_CONFLICT",
                   message := s!"Multiple always-apply rules in scope \x22{sc}\x22: {joined}. Consider setting priorities.",
                   field := some "scope", severity := "warning" }]
        else ws)
      []
  else []

/-- The circular-dependency report of `validateAbstractionGroup`: at most
one `CIRCULAR_DEPENDENCY` error, for the first key whose DFS finds a cycle
(the source loop `break`s after the first report). -/
def cycleErrorsOf (graph : List (String × List String)) : List ValidationIssue :=
  match findCycleNode graph graph [] with
  | some nodeId =>
    [{ code := "CIRCULAR_DEPENDENCY",
       message := s!"Circular dependency detected involving \x22{nodeId}\x22",
       field := some "dependencies", severity := "error" }]
  | none => []

/-- `validateAbstractionGroup` of `src/validators.ts`. -/
def validateAbstractionGroup (abstractions : List RuleBlock) : ValidationResult :=
  let st := groupScan abstractions
  let allIds := abstractions.map (fun ab => ab.metadata.id)
  let errors := st.errors ++ cycleErrorsOf st.dependencyGraph ++
    invalidDepErrors st.dependencyGraph allIds
  let warnings := scopeWarnings abstractions
  { valid := errors.length == 0, errors := errors, warnings := warnings,
    suggestions := [] }

end Validators

/-- The `ValidationResult` shape invariant of the specification:
`valid == (errors.length == 0)`. -/
def resultInvariant (r : ValidationResult) : Prop :=
  r.valid = (r.errors.length == 0)

instance (r : ValidationResult) : Decidable (resultInvariant r) := by
  unfold resultInvariant; infer_instance

/-- The shape invariant lifted to a possibly-throwing validator result:
it must hold whenever a `ValidationResult` is actually returned. -/
def exceptInvariant (x : Except JsError ValidationResult) : Prop :=
  match x with
  | .ok r => resultInvariant r
  | .error _ => True

/-- Number of issues carrying a given code. -/
def countCode (code : String) (errs : List ValidationIssue) : Nat :=
  (errs.filter (fun e => e.code == code)).length

/-- The minimal valid subagent document of the in-repo test suite
(`validators.test.ts`, "should validate minimal valid subagent"). -/
def mdBasicSubagent : Metadata :=
  { id := "basic-subagent", type := some "subagent", isolatedContext := some true }

/-- Content of the minimal-subagent test. -/
def basicSubagentContent : String := "Step 1: Process input. Then handle the task."

/-- The well-formed command document of the in-repo test suite
("should route to command validator"). -/
def mdTestCommand : Metadata :=
  { id := "test-command", type := some "command", trigger := some "/test",
    userInvoked := some true }

/-- The subagent-with-`alwaysApply` document of the in-repo test suite
("should fail when using alwaysApply flag"). -/
def mdSubagentAlwaysApply : Metadata :=
  { id := "subagent-always-apply", type := some "subagent",
    isolatedContext := some true, alwaysApply := some true }

/-- A document with empty content and no type or hint metadata. -/
def emptyDoc : RuleBlock := { metadata := { id := "doc-1" }, content := "" }

/-- Metadata whose only classification hint is a scope entry containing
`"cli"`. -/
def mdScopeOnly : Metadata := { id := "scope-doc", scope := some (.arr ["cli tools"]) }

/-- A two-document batch with mutually circular dependency declarations. -/
def batchCircular : List RuleBlock :=
  [{ metadata := { id := "doc-a", dependencies := some ["doc-b"] }, content := "Document A" },
   { metadata := { id := "doc-b", dependencies := some ["doc-a"] }, content := "Document B" }]

/-- First command document claiming the trigger `"/build"`. -/
def cmdDocA : RuleBlock :=
  { metadata := { id := "cmd-a", type := some "command", trigger := some "/build",
                  userInvoked := some true }
    content := "Execute build" }

/-- Second command document claiming the same trigger. -/
def cmdDocB : RuleBlock :=
  { metadata := { id := "cmd-b", type := some "command", trigger := some "/build",
                  userInvoked := some true }
    content := "Execute build again" }

/-- The conflicting two-command batch. -/
def batchTriggerConflict : List RuleBlock := [cmdDocA, cmdDocB]

/-- C5: `validateAnyAbstraction` with missing metadata (for any content), or
with missing content (for any metadata), returns — without throwing — an
invalid result whose single error is `MISSING_REQUIRED_FIELD`, with empty
warnings and suggestions. -/
theorem C5_missing_metadata_or_content (content : Option String) (md : Metadata) :
    Validators.validateAnyAbstraction none content =
      .ok { valid := false,
            errors := [{ code := "MISSING_REQUIRED_FIELD",
                         message := "Metadata is required for validation",
                         field := none, severity := "error" }],
            warnings := [], suggestions := [] } ∧
    Validators.validateAnyAbstraction (some md) none =
      .ok { valid := false,
            errors := [{ code := "MISSING_REQUIRED_FIELD",
                         message := "Content is required for validation",
                         field := none, severity := "error" }],
            warnings := [], suggestions := [] } :=
  ⟨rfl, rfl⟩

/-- C1 (divergence of the code from the claim): on in-contract inputs —
the minimal valid subagent document of the in-repo test suite and a command
whose trigger starts with `/` — `validateSubAgent` and `validateCommand`
throw a `ReferenceError` (undefined identifiers left by an unresolved merge
in `validators.ts`), and `validateAnyAbstraction` propagates the exception
instead of folding it into an error-severity issue (its routing helper has
no `try`/`catch`). -/
theorem C1_validators_throw_in_contract :
    Validators.validateSubAgent mdBasicSubagent basicSubagentContent =
      .error (.referenceError "skill") ∧
    Validators.validateCommand mdTestCommand "Execute test suite" =
      .error (.referenceError "subagent") ∧
    Validators.validateAnyAbstraction (some mdBasicSubagent) (some basicSubagentContent) =
      .error (.referenceError "skill") :=
  ⟨rfl, rfl, rfl⟩

/-- C3 (divergence of the code from the claim): on the exact input of the
in-repo test "should fail when using alwaysApply flag" (metadata with
`isolatedContext: true` and `alwaysApply: true`), `validateSubAgent` throws
a `ReferenceError` instead of returning a `ValidationResult` containing a
`SUBAGENT_RULE_CONFLICT` error. -/
theorem C3_subagent_rule_conflict_throws :
    Validators.validateSubAgent mdSubagentAlwaysApply "Step 1: Process" =
      .error (.referenceError "skill") :=
  rfl

/-- C2 counterexample: `combineValidationResults`, applied to a list holding
a (caller-supplied) result that already violates the shape invariant,
returns a result with `valid = false` and no errors — so the invariant does
not hold for every input of every listed operation. -/
theorem C2_combine_counterexample :
    ¬ resultInvariant (Validators.combineValidationResults
        [{ valid := false, errors := [], warnings := [], suggestions := [] }]) := by
  decide

/-- C8 counterexample: for the document whose only metadata hint is the
command-related scope entry, the hint is found with confidence `0.6`, yet
the command score receives no metadata boost at all — it stays `0` instead
of the claimed `0.6 * 0.3 = 0.18`. -/
theorem C8_scope_hint_no_boost_counterexample :
    (TypeDetector.analyzeMetadata mdScopeOnly).typeHints = ["command-related scope"] ∧
    (TypeDetector.analyzeMetadata mdScopeOnly).confidence = 3/5 ∧
    (TypeDetector.rawTypeScores (TypeDetector.analyzeRuleContent "")
        (TypeDetector.analyzeMetadata mdScopeOnly)).command = 0 ∧
    (TypeDetector.rawTypeScores (TypeDetector.analyzeRuleContent "")
        (TypeDetector.analyzeMetadata mdScopeOnly)).command ≠ 9/50 := by
  have hHints : (TypeDetector.analyzeMetadata mdScopeOnly).typeHints =
      ["command-related scope"] := by decide
  have hca : TypeDetector.analyzeRuleContent "" =
      { skillPatterns := [], subagentPatterns := [], commandPatterns := [],
        rulePatterns := [], structuralFeatures := [], keywordDensity := [] } := by decide
  have hcmd : (TypeDetector.rawTypeScores (TypeDetector.analyzeRuleContent "")
      (TypeDetector.analyzeMetadata mdScopeOnly)).command = 0 := by
    have f1 : strIncludes "command-related scope" "expertise" = false := by decide
    have f2 : strIncludes "command-related scope" "trigger" = false := by decide
    have f3 : strIncludes "command-related scope" "manual" = false := by decide
    have f4 : strIncludes "command-related scope" "always apply" = false := by decide
    simp only [TypeDetector.rawTypeScores, TypeDetector.metadataBoost,
      TypeDetector.structuralBoost, TypeDetector.baseScores, hca, hHints,
      List.any_cons, List.any_nil, List.contains_nil,
      TypeDetector.calculateContentScore, List.isEmpty_nil, if_true,
      f1, f2, f3, f4, Bool.false_eq_true, if_false,
      Bool.or_false, Bool.false_or, Bool.or_self]
  have hconf : (TypeDetector.analyzeMetadata mdScopeOnly).confidence = 3/5 := by
    have h1 : optStrTruthy mdScopeOnly.type = false := by decide
    have h2 : TypeDetector.slashTriggerCond mdScopeOnly = false := by decide
    have h3 : (mdScopeOnly.manual == some true) = false := by decide
    have h4 : (mdScopeOnly.alwaysApply == some true) = false := by decide
    have h5 : TypeDetector.expertiseCond mdScopeOnly = false := by decide
    have h6 : TypeDetector.scopeCond mdScopeOnly = true := by decide
    simp only [TypeDetector.analyzeMetadata, h1, h2, h3, h4, h5, h6,
      Bool.false_eq_true, if_false, if_true]
    norm_num
  refine ⟨hHints, hconf, hcmd, ?_⟩
  rw [hcmd]
  norm_num

/-- C4: the empty document with no type or hint metadata is classified as a
`rule` with confidence at least `0.5`; and for every input the rule score
after score computation is at least `0.3` (never exactly 0). -/
theorem C4_rule_fallback :
    (TypeDetector.detectAbstractionType emptyDoc).type = "rule" ∧
    (1/2 : Rat) ≤ (TypeDetector.detectAbstractionType emptyDoc).confidence ∧
    ∀ ca ma, (3/10 : Rat) ≤ (TypeDetector.calculateTypeScores ca ma).rule := by
  have hca : TypeDetector.analyzeRuleContent emptyDoc.content =
      { skillPatterns := [], subagentPatterns := [], commandPatterns := [],
        rulePatterns := [], structuralFeatures := [], keywordDensity := [] } := by decide
  have hma_exp : (TypeDetector.analyzeMetadata emptyDoc.metadata).explicitType = none := by
    decide
  have hma_hints : (TypeDetector.analyzeMetadata emptyDoc.metadata).typeHints = [] := by
    decide
  have hraw : TypeDetector.rawTypeScores (TypeDetector.analyzeRuleContent emptyDoc.content)
      (TypeDetector.analyzeMetadata emptyDoc.metadata) =
      { skill := 0, subagent := 0, command := 0, rule := 0 } := by
    simp only [TypeDetector.rawTypeScores, TypeDetector.metadataBoost,
      TypeDetector.structuralBoost, TypeDetector.baseScores, hca, hma_hints,
      List.any_nil, List.contains_nil, Bool.false_eq_true, if_false,
      Bool.or_self, TypeDetector.calculateContentScore, List.isEmpty_nil, if_true]
  have hscores : TypeDetector.calculateTypeScores
      (TypeDetector.analyzeRuleContent emptyDoc.content)
      (TypeDetector.analyzeMetadata emptyDoc.metadata) =
      { skill := 0, subagent := 0, command := 0, rule := 3/10 } := by
    simp only [TypeDetector.calculateTypeScores, TypeDetector.normalizeScores, hraw,
      TypeDetector.TypeScores.maxScore]
    norm_num
  have hdet : TypeDetector.detectAbstractionType emptyDoc =
      { type := "rule", confidence := 1/2, indicators := [] } := by
    simp only [TypeDetector.detectAbstractionType, hma_exp, optStrTruthy,
      Bool.false_and, Bool.false_eq_true, if_false, hscores]
    norm_num [TypeDetector.TypeScores.maxScore, TypeDetector.findMaxType,
      TypeDetector.gatherIndicators, hca, hma_hints]
  refine ⟨by rw [hdet], by rw [hdet], fun ca ma => le_max_right _ _⟩

/-- One `groupScanStep` either leaves the error list unchanged or appends a
single `COMMAND_TRIGGER_CONFLICT` error. -/
theorem groupScanStep_errors (st : Validators.GroupScanState) (ab : RuleBlock) :
    (Validators.groupScanStep st ab).errors = st.errors ∨
    ∃ msg, (Validators.groupScanStep st ab).errors =
      st.errors ++ [{ code := "COMMAND_TRIGGER_CONFLICT", message := msg,
                      field := some "trigger", severity := "error" }] := by
  unfold Validators.groupScanStep
  cases h2 : ab.metadata.dependencies.isSome with
  | false =>
    simp only [h2, Bool.false_eq_true, if_false]
    cases h1 : ab.metadata.type == some "command" && optStrTruthy ab.metadata.trigger with
    | false => simp [h1]
    | true =>
      simp only [h1, if_true]
      cases h3 : optStrTruthy
          (Validators.alistGet st.commandTriggers (ab.metadata.trigger.getD "")) with
      | false => simp [h3]
      | true => simp only [h3, if_true]; exact Or.inr ⟨_, rfl⟩
  | true =>
    simp only [h2, if_true]
    cases h1 : ab.metadata.type == some "command" && optStrTruthy ab.metadata.trigger with
    | false => simp [h1]
    | true =>
      simp only [h1, if_true]
      cases h3 : optStrTruthy
          (Validators.alistGet st.commandTriggers (ab.metadata.trigger.getD "")) with
      | false => simp [h3]
      | true => simp only [h3, if_true]; exact Or.inr ⟨_, rfl⟩

/-- Every error produced by the first scan pass of
`validateAbstractionGroup` is a trigger-conflict error. -/
theorem groupScan_errors_code (abs : List RuleBlock) :
    ∀ e ∈ (Validators.groupScan abs).errors, e.code = "COMMAND_TRIGGER_CONFLICT" := by
  have key : ∀ (l : List RuleBlock) (st : Validators.GroupScanState),
      (∀ e ∈ st.errors, e.code = "COMMAND_TRIGGER_CONFLICT") →
      ∀ e ∈ (l.foldl Validators.groupScanStep st).errors,
        e.code = "COMMAND_TRIGGER_CONFLICT" := by
    intro l
    induction l with
    | nil => intro st h; simpa using h
    | cons x xs ih =>
      intro st hst
      simp only [List.foldl_cons]
      refine ih _ ?_
      intro e he
      rcases groupScanStep_errors st x with h | ⟨msg, h⟩
      · rw [h] at he; exact hst e he
      · rw [h] at he
        rcases List.mem_append.mp he with h3 | h3
        · exact hst e h3
        · simp only [List.mem_singleton] at h3; subst h3; rfl
  exact key abs _ (by intro e he; cases he)

/-- Every error produced by the dangling-reference loop of
`validateAbstractionGroup` is an invalid-dependency error. -/
theorem invalidDepErrors_code (graph : List (String × List String)) (allIds : List String) :
    ∀ e ∈ Validators.invalidDepErrors graph allIds, e.code = "INVALID_DEPENDENCY" := by
  unfold Validators.invalidDepErrors
  have key : ∀ (l : List (String × List String)) (acc : List ValidationIssue),
      (∀ e ∈ acc, e.code = "INVALID_DEPENDENCY") →
      ∀ e ∈ (l.foldl (Validators.invalidDepStep allIds) acc),
        e.code = "INVALID_DEPENDENCY" := by
    intro l
    induction l with
    | nil => intro acc h; simpa using h
    | cons x xs ih =>
      intro acc hacc
      simp only [List.foldl_cons]
      refine ih _ ?_
      intro e he
      unfold Validators.invalidDepStep at he
      by_cases h4 : (x.2.filter (fun d => !allIds.contains d)).length > 0
      · rw [if_pos h4] at he
        rcases List.mem_append.mp he with h3 | h3
        · exact hacc e h3
        · simp only [List.mem_singleton] at h3; subst h3; rfl
      · rw [if_neg h4] at he
        exact hacc e he
  exact key graph [] (by intro e he; cases he)

/-- The cycle report carries at most one error, and that error has code
`CIRCULAR_DEPENDENCY`. -/
theorem cycleErrorsOf_shape (graph : List (String × List String)) :
    Validators.cycleErrorsOf graph = [] ∨
    ∃ msg, Validators.cycleErrorsOf graph =
      [{ code := "CIRCULAR_DEPENDENCY", message := msg,
         field := some "dependencies", severity := "error" }] := by
  unfold Validators.cycleErrorsOf
  rcases Validators.findCycleNode graph graph [] with _ | n
  · exact Or.inl rfl
  · exact Or.inr ⟨_, rfl⟩

/-- `countCode` distributes over list append. -/
theorem countCode_append (c : String) (a b : List ValidationIssue) :
    countCode c (a ++ b) = countCode c a + countCode c b := by
  simp [countCode, List.filter_append]

/-- A list all of whose issues carry a different code contributes zero to
`countCode`. -/
theorem countCode_eq_zero {c : String} {l : List ValidationIssue}
    (h : ∀ e ∈ l, e.code ≠ c) : countCode c l = 0 := by
  unfold countCode
  rw [List.length_eq_zero, List.filter_eq_nil_iff]
  intro e he
  simp only [beq_iff_eq]
  exact h e he

/-- C6: the mutually circular two-document batch yields exactly one
`CIRCULAR_DEPENDENCY` error (not one per cycle node), and no batch is ever
reported with more than one `CIRCULAR_DEPENDENCY` error (the DFS loop stops
at the first cycle found). -/
theorem C6_single_circular_dependency :
    countCode "CIRCULAR_DEPENDENCY"
      (Validators.validateAbstractionGroup batchCircular).errors = 1 ∧
    ∀ batch, countCode "CIRCULAR_DEPENDENCY"
      (Validators.validateAbstractionGroup batch).errors ≤ 1 := by
  constructor
  · decide
  · intro batch
    have herr : (Validators.validateAbstractionGroup batch).errors =
        (Validators.groupScan batch).errors ++
          Validators.cycleErrorsOf (Validators.groupScan batch).dependencyGraph ++
          Validators.invalidDepErrors (Validators.groupScan batch).dependencyGraph
            (batch.map (fun ab => ab.metadata.id)) := rfl
    rw [herr, countCode_append, countCode_append]
    have h1 : countCode "CIRCULAR_DEPENDENCY" (Validators.groupScan batch).errors = 0 :=
      countCode_eq_zero (fun e he => by rw [groupScan_errors_code batch e he]; decide)
    have h2 : countCode "CIRCULAR_DEPENDENCY"
        (Validators.invalidDepErrors (Validators.groupScan batch).dependencyGraph
          (batch.map (fun ab => ab.metadata.id))) = 0 :=
      countCode_eq_zero (fun e he => by rw [invalidDepErrors_code _ _ e he]; decide)
    have h3 : countCode "CIRCULAR_DEPENDENCY"
        (Validators.cycleErrorsOf (Validators.groupScan batch).dependencyGraph) ≤ 1 := by
      rcases cycleErrorsOf_shape (Validators.groupScan batch).dependencyGraph
        with h | ⟨msg, h⟩ <;> rw [h] <;> simp [countCode]
    rw [h1, h2]
    omega

/-- C7 counterexample: for the two-command `"/build"` batch, the single
`COMMAND_TRIGGER_CONFLICT` error names only the first (already-registered)
command id `cmd-a`; the second colliding id `cmd-b` appears nowhere in the
error (its message is the only id-bearing component, and it does not contain
`cmd-b`). -/
theorem C7_conflict_names_first_id_only :
    (Validators.validateAbstractionGroup batchTriggerConflict).errors =
      [{ code := "COMMAND_TRIGGER_CONFLICT",
         message := "Trigger \x22/build\x22 conflicts with command \x22cmd-a\x22",
         field := some "trigger", severity := "error" }] ∧
    strIncludes "Trigger \x22/build\x22 conflicts with command \x22cmd-a\x22" "cmd-b" = false := by
  exact ⟨by decide, by decide⟩

/-- C7 (amended): a batch of exactly two command documents declaring the
same (nonempty) trigger, the first of which has a nonempty id, yields
exactly one error, a `COMMAND_TRIGGER_CONFLICT` whose message names the
shared trigger and the first document's id — the second document's id is
not included.  (A first command with the empty-string id would be falsy
under the source's `if (existingId)` truthiness check and be silently
re-registered without any error, hence the nonempty-id hypothesis.) -/
theorem C7_trigger_conflict_amended (id1 id2 t c1 c2 : String) (ht : t ≠ "")
    (hid : id1 ≠ "") :
    (Validators.validateAbstractionGroup
      [⟨{ id := id1, type := some "command", trigger := some t, userInvoked := some true }, c1⟩,
       ⟨{ id := id2, type := some "command", trigger := some t, userInvoked := some true }, c2⟩]).errors =
    [{ code := "COMMAND_TRIGGER_CONFLICT",
       message := Validators.triggerConflictMessage t id1,
       field := some "trigger", severity := "error" }] := by
  have ht2 : optStrTruthy (some t) = true := by
    simp [optStrTruthy, bne_iff_ne, ht]
  have hid2 : optStrTruthy (some id1) = true := by
    simp [optStrTruthy, bne_iff_ne, hid]
  unfold Validators.validateAbstractionGroup Validators.groupScan
  simp only [List.foldl_cons, List.foldl_nil]
  unfold Validators.groupScanStep
  simp [ht2, hid2, show optStrTruthy none = false from rfl, Validators.alistGet,
    Validators.cycleErrorsOf, Validators.findCycleNode, Validators.invalidDepErrors,
    Validators.scopeWarnings]

/-- Witness for the amended C7 theorem at the concrete `"/build"` batch. -/
theorem C7_trigger_conflict_amended_witness :
    (Validators.validateAbstractionGroup
      [⟨{ id := "cmd-a", type := some "command", trigger := some "/build", userInvoked := some true }, "Execute build"⟩,
       ⟨{ id := "cmd-b", type := some "command", trigger := some "/build", userInvoked := some true }, "Execute build again"⟩]).errors =
    [{ code := "COMMAND_TRIGGER_CONFLICT",
       message := Validators.triggerConflictMessage "/build" "cmd-a",
       field := some "trigger", severity := "error" }] :=
  C7_trigger_conflict_amended "cmd-a" "cmd-b" "/build" "Execute build"
    "Execute build again" (by decide) (by decide)

/-- `validateSkill` returns `valid` exactly when its error list is empty. -/
theorem validateSkill_invariant (md : Metadata) (c : String) :
    resultInvariant (Validators.validateSkill md c) := rfl

/-- `validateRule` returns `valid` exactly when its error list is empty. -/
theorem validateRule_invariant (md : Metadata) (c : String) :
    resultInvariant (Validators.validateRule md c) := rfl

/-- Whenever `validateSubAgent` actually returns a result, that result
satisfies the shape invariant. -/
theorem validateSubAgent_invariant (md : Metadata) (c : String) :
    exceptInvariant (Validators.validateSubAgent md c) := by
  unfold Validators.validateSubAgent
  by_cases h : ((md.tools.getD []).length > 5)
  · rw [if_pos h]; exact rfl
  · rw [if_neg h]; exact trivial

/-- Whenever `validateCommand` actually returns a result, that result
satisfies the shape invariant. -/
theorem validateCommand_invariant (md : Metadata) (c : String) :
    exceptInvariant (Validators.validateCommand md c) := by
  unfold Validators.validateCommand
  split
  · exact trivial
  · exact rfl

/-- Routing preserves the shape invariant on every returned result. -/
theorem route_invariant (t : String) (md : Metadata) (c : String) :
    exceptInvariant (Validators.routeToSpecificValidator t md c) := by
  unfold Validators.routeToSpecificValidator
  split
  · exact validateSkill_invariant md c
  · split
    · exact validateSubAgent_invariant md c
    · split
      · exact validateCommand_invariant md c
      · split
        · exact validateRule_invariant md c
        · exact rfl

/-- The dispatcher preserves the shape invariant on every returned result;
in particular appending the `ABSTRACTION_TYPE_MISMATCH` warning touches only
the warning list. -/
theorem validateAnyAbstraction_invariant (m : Option Metadata) (c : Option String) :
    exceptInvariant (Validators.validateAnyAbstraction m c) := by
  rcases m with _ | md
  · exact rfl
  rcases c with _ | cc
  · exact rfl
  unfold Validators.validateAnyAbstraction
  rcases hroute : Validators.routeToSpecificValidator
      (if optStrTruthy md.type then md.type.getD ""
       else (TypeDetector.detectAbstractionType { metadata := md, content := cc }).type)
      md cc with e | r
  · simp only [hroute]; exact trivial
  · have hinv : resultInvariant r := by
      have h := route_invariant
        (if optStrTruthy md.type then md.type.getD ""
         else (TypeDetector.detectAbstractionType { metadata := md, content := cc }).type)
        md cc
      rw [hroute] at h
      exact h
    simp only [hroute]
    split
    · split
      · exact hinv
      · exact hinv
    · exact hinv

/-- `combineValidationResults` preserves the shape invariant when every
input result satisfies it. -/
theorem combine_invariant (results : List ValidationResult)
    (h : ∀ r ∈ results, resultInvariant r) :
    resultInvariant (Validators.combineValidationResults results) := by
  unfold Validators.combineValidationResults
  suffices key : ∀ (l : List ValidationResult) (acc : ValidationResult),
      resultInvariant acc → (∀ r ∈ l, resultInvariant r) →
      resultInvariant (l.foldl
        (fun combined result =>
          { valid := if !result.valid then false else combined.valid
            errors := combined.errors ++ result.errors
            warnings := combined.warnings ++ result.warnings
            suggestions := combined.suggestions ++ result.suggestions }) acc) by
    exact key results _ rfl h
  intro l
  induction l with
  | nil => intro acc hacc _; simpa using hacc
  | cons x xs ih =>
    intro acc hacc hl
    simp only [List.foldl_cons]
    refine ih _ ?_ (fun r hr => hl r (List.mem_cons_of_mem _ hr))
    have hx : resultInvariant x := hl x (List.mem_cons_self _ _)
    unfold resultInvariant at hacc hx ⊢
    dsimp only
    rw [hacc, hx]
    rcases acc.errors with _ | ⟨e, es⟩ <;> rcases x.errors with _ | ⟨f, fs⟩ <;> simp

/-- C2 (amended): every result actually returned by a validation operation
satisfies `valid == (errors.length == 0)` — unconditionally for
`validateSkill`, `validateRule` and `validateAbstractionGroup`, on every
normally-returned result for `validateSubAgent`, `validateCommand` and
`validateAnyAbstraction` (where the dispatcher's appended
`ABSTRACTION_TYPE_MISMATCH` warning never changes `valid`), and for
`combineValidationResults` whenever each of its caller-supplied input
results itself satisfies the invariant. -/
theorem C2_valid_iff_no_errors :
    (∀ md c, resultInvariant (Validators.validateSkill md c)) ∧
    (∀ md c, exceptInvariant (Validators.validateSubAgent md c)) ∧
    (∀ md c, exceptInvariant (Validators.validateCommand md c)) ∧
    (∀ md c, resultInvariant (Validators.validateRule md c)) ∧
    (∀ m c, exceptInvariant (Validators.validateAnyAbstraction m c)) ∧
    (∀ batch, resultInvariant (Validators.validateAbstractionGroup batch)) ∧
    (∀ results, (∀ r ∈ results, resultInvariant r) →
      resultInvariant (Validators.combineValidationResults results)) :=
  ⟨validateSkill_invariant, validateSubAgent_invariant, validateCommand_invariant,
   validateRule_invariant, validateAnyAbstraction_invariant,
   fun _ => rfl, combine_invariant⟩

/-- Witness for the amended C2 theorem: the combination hypothesis is
discharged at a concrete singleton list. -/
theorem C2_valid_iff_no_errors_witness :
    resultInvariant (Validators.combineValidationResults
      [Validators.validateRule { id := "w2" } "Always be consistent."]) := by
  refine C2_valid_iff_no_errors.2.2.2.2.2.2 _ ?_
  intro r hr
  simp only [List.mem_singleton] at hr
  subst hr
  exact rfl

/-- A conditional singleton list satisfies `any p` exactly when the
condition holds and `p` holds of the element. -/
theorem any_ite_singleton (c : Bool) (x : String) (p : String → Bool) :
    (if c then [x] else []).any p = (c && p x) := by
  cases c <;> simp

/-- C8 (amended): in score computation, the slash-trigger, manual,
alwaysApply and expertise hints each boost the score of the category they
imply by `metadataConfidence * 0.3` (half that for the manual hint); the
command-related-scope hint raises the metadata confidence but matches none
of the boost checks, so it contributes no score boost at all — in
particular a scope-only document's command score receives no boost. -/
theorem C8_metadata_boost_amended (md : Metadata) (s : TypeDetector.TypeScores)
    (h : optStrTruthy md.type = false) :
    TypeDetector.metadataBoost (TypeDetector.analyzeMetadata md) s =
      { skill := s.skill + (if TypeDetector.expertiseCond md then
          (TypeDetector.analyzeMetadata md).confidence * (3/10) else 0),
        subagent := s.subagent,
        command := s.command + (if TypeDetector.slashTriggerCond md then
          (TypeDetector.analyzeMetadata md).confidence * (3/10) else 0) +
          (if md.manual == some true then
          (TypeDetector.analyzeMetadata md).confidence * (3/10) * (1/2) else 0),
        rule := s.rule + (if md.alwaysApply == some true then
          (TypeDetector.analyzeMetadata md).confidence * (3/10) else 0) } := by
  have hints_eq : (TypeDetector.analyzeMetadata md).typeHints =
      (if TypeDetector.slashTriggerCond md then ["slash trigger in metadata"] else []) ++
      (if md.manual == some true then ["manual invocation flag"] else []) ++
      (if md.alwaysApply == some true then ["always apply flag suggests rule"] else []) ++
      (if TypeDetector.expertiseCond md then ["expertise field suggests skill"] else []) ++
      (if TypeDetector.scopeCond md then ["command-related scope"] else []) := by
    simp only [TypeDetector.analyzeMetadata, h, Bool.false_eq_true, if_false]
  have hAnyE : ((TypeDetector.analyzeMetadata md).typeHints.any
      (fun x => strIncludes x "expertise")) = TypeDetector.expertiseCond md := by
    rw [hints_eq]
    simp only [List.any_append, any_ite_singleton,
      show strIncludes "slash trigger in metadata" "expertise" = false from by decide,
      show strIncludes "manual invocation flag" "expertise" = false from by decide,
      show strIncludes "always apply flag suggests rule" "expertise" = false from by decide,
      show strIncludes "expertise field suggests skill" "expertise" = true from by decide,
      show strIncludes "command-related scope" "expertise" = false from by decide,
      Bool.and_false, Bool.and_true, Bool.or_false, Bool.false_or]
  have hAnyT : ((TypeDetector.analyzeMetadata md).typeHints.any
      (fun x => strIncludes x "trigger")) = TypeDetector.slashTriggerCond md := by
    rw [hints_eq]
    simp only [List.any_append, any_ite_singleton,
      show strIncludes "slash trigger in metadata" "trigger" = true from by decide,
      show strIncludes "manual invocation flag" "trigger" = false from by decide,
      show strIncludes "always apply flag suggests rule" "trigger" = false from by decide,
      show strIncludes "expertise field suggests skill" "trigger" = false from by decide,
      show strIncludes "command-related scope" "trigger" = false from by decide,
      Bool.and_false, Bool.and_true, Bool.or_false, Bool.false_or]
  have hAnyM : ((TypeDetector.analyzeMetadata md).typeHints.any
      (fun x => strIncludes x "manual")) = (md.manual == some true) := by
    rw [hints_eq]
    simp only [List.any_append, any_ite_singleton,
      show strIncludes "slash trigger in metadata" "manual" = false from by decide,
      show strIncludes "manual invocation flag" "manual" = true from by decide,
      show strIncludes "always apply flag suggests rule" "manual" = false from by decide,
      show strIncludes "expertise field suggests skill" "manual" = false from by decide,
      show strIncludes "command-related scope" "manual" = false from by decide,
      Bool.and_false, Bool.and_true, Bool.or_false, Bool.false_or]
  have hAnyA : ((TypeDetector.analyzeMetadata md).typeHints.any
      (fun x => strIncludes x "always apply")) = (md.alwaysApply == some true) := by
    rw [hints_eq]
    simp only [List.any_append, any_ite_singleton,
      show strIncludes "slash trigger in metadata" "always apply" = false from by decide,
      show strIncludes "manual invocation flag" "always apply" = false from by decide,
      show strIncludes "always apply flag suggests rule" "always apply" = true from by decide,
      show strIncludes "expertise field suggests skill" "always apply" = false from by decide,
      show strIncludes "command-related scope" "always apply" = false from by decide,
      Bool.and_false, Bool.and_true, Bool.or_false, Bool.false_or]
  simp only [TypeDetector.metadataBoost, hAnyE, hAnyT, hAnyM, hAnyA]
  cases hT : TypeDetector.slashTriggerCond md <;>
    cases hM : (md.manual == some true) <;>
      cases hA : (md.alwaysApply == some true) <;>
        cases hE : TypeDetector.expertiseCond md <;>
          simp [hT, hM, hA, hE]

/-- Witness for the amended C8 theorem at the scope-only document. -/
theorem C8_metadata_boost_amended_witness :
    TypeDetector.metadataBoost (TypeDetector.analyzeMetadata mdScopeOnly)
      { skill := 1, subagent := 1, command := 1, rule := 1 } =
      { skill := 1 + (if TypeDetector.expertiseCond mdScopeOnly then
          (TypeDetector.analyzeMetadata mdScopeOnly).confidence * (3/10) else 0),
        subagent := 1,
        command := 1 + (if TypeDetector.slashTriggerCond mdScopeOnly then
          (TypeDetector.analyzeMetadata mdScopeOnly).confidence * (3/10) else 0) +
          (if mdScopeOnly.manual == some true then
          (TypeDetector.analyzeMetadata mdScopeOnly).confidence * (3/10) * (1/2) else 0),
        rule := 1 + (if mdScopeOnly.alwaysApply == some true then
          (TypeDetector.analyzeMetadata mdScopeOnly).confidence * (3/10) else 0) } :=
  C8_metadata_boost_amended mdScopeOnly
    { skill := 1, subagent := 1, command := 1, rule := 1 } (by decide)

/-- The maximum of the four scores is attained by one of them. -/
theorem maxScore_cases (s : TypeDetector.TypeScores) :
    s.maxScore = s.skill ∨ s.maxScore = s.subagent ∨
    s.maxScore = s.command ∨ s.maxScore = s.rule := by
  unfold TypeDetector.TypeScores.maxScore
  rcases max_choice (max (max s.skill s.subagent) s.command) s.rule with h | h
  · rw [h]
    rcases max_choice (max s.skill s.subagent) s.command with h2 | h2
    · rw [h2]
      rcases max_choice s.skill s.subagent with h3 | h3
      · exact Or.inl h3
      · exact Or.inr (Or.inl h3)
    · exact Or.inr (Or.inr (Or.inl h2))
  · exact Or.inr (Or.inr (Or.inr h))

/-- When some raw score is positive, normalization divides by the maximum
raw score, so after the rule floor the maximum score is exactly 1. -/
theorem calc_maxScore_eq_one (ca : TypeDetector.ContentAnalysis)
    (ma : TypeDetector.MetadataAnalysis)
    (h : 0 < (TypeDetector.rawTypeScores ca ma).maxScore) :
    (TypeDetector.calculateTypeScores ca ma).maxScore = 1 := by
  set raw := TypeDetector.rawTypeScores ca ma with hraw
  set m := raw.maxScore with hm
  have hm0 : m ≠ 0 := ne_of_gt h
  have hnorm : TypeDetector.normalizeScores raw =
      { skill := min (raw.skill / m) 1, subagent := min (raw.subagent / m) 1,
        command := min (raw.command / m) 1, rule := min (raw.rule / m) 1 } := by
    unfold TypeDetector.normalizeScores
    rw [if_pos h]
  have hcs : TypeDetector.calculateTypeScores ca ma =
      { skill := min (raw.skill / m) 1, subagent := min (raw.subagent / m) 1,
        command := min (raw.command / m) 1,
        rule := max (min (raw.rule / m) 1) (3/10) } := by
    unfold TypeDetector.calculateTypeScores
    rw [hnorm]
  rw [hcs]
  unfold TypeDetector.TypeScores.maxScore
  have b1 : min (raw.skill / m) 1 ≤ 1 := min_le_right _ _
  have b2 : min (raw.subagent / m) 1 ≤ 1 := min_le_right _ _
  have b3 : min (raw.command / m) 1 ≤ 1 := min_le_right _ _
  have b4 : max (min (raw.rule / m) 1) (3/10) ≤ 1 :=
    max_le (min_le_right _ _) (by norm_num)
  have hle : max (max (max (min (raw.skill / m) 1) (min (raw.subagent / m) 1))
      (min (raw.command / m) 1)) (max (min (raw.rule / m) 1) (3/10)) ≤ 1 :=
    max_le (max_le (max_le b1 b2) b3) b4
  have hge : 1 ≤ max (max (max (min (raw.skill / m) 1) (min (raw.subagent / m) 1))
      (min (raw.command / m) 1)) (max (min (raw.rule / m) 1) (3/10)) := by
    rcases maxScore_cases raw with hx | hx | hx | hx
    · have h1 : min (raw.skill / m) 1 = 1 := by
        rw [← hx, ← hm, div_self hm0, min_self]
      calc (1 : Rat) = min (raw.skill / m) 1 := h1.symm
        _ ≤ max (min (raw.skill / m) 1) (min (raw.subagent / m) 1) := le_max_left _ _
        _ ≤ _ := le_trans (le_max_left _ _) (le_max_left _ _)
    · have h1 : min (raw.subagent / m) 1 = 1 := by
        rw [← hx, ← hm, div_self hm0, min_self]
      calc (1 : Rat) = min (raw.subagent / m) 1 := h1.symm
        _ ≤ max (min (raw.skill / m) 1) (min (raw.subagent / m) 1) := le_max_right _ _
        _ ≤ _ := le_trans (le_max_left _ _) (le_max_left _ _)
    · have h1 : min (raw.command / m) 1 = 1 := by
        rw [← hx, ← hm, div_self hm0, min_self]
      calc (1 : Rat) = min (raw.command / m) 1 := h1.symm
        _ ≤ max (max (min (raw.skill / m) 1) (min (raw.subagent / m) 1))
            (min (raw.command / m) 1) := le_max_right _ _
        _ ≤ _ := le_max_left _ _
    · have h1 : min (raw.rule / m) 1 = 1 := by
        rw [← hx, ← hm, div_self hm0, min_self]
      calc (1 : Rat) = min (raw.rule / m) 1 := h1.symm
        _ ≤ max (min (raw.rule / m) 1) (3/10) := le_max_left _ _
        _ ≤ _ := le_max_right _ _
  exact le_antisymm hle hge

/-- C10: for every document without an explicit `metadata.type` whose raw
scores are not all zero, `detectAbstractionType` reports confidence exactly
`1.0`, whatever category wins — normalization divides every score by the
maximum raw score, making the winner normalized to exactly `1.0`. -/
theorem C10_normalized_winner_confidence (md : Metadata) (content : String)
    (h1 : optStrTruthy md.type = false)
    (h2 : 0 < (TypeDetector.rawTypeScores (TypeDetector.analyzeRuleContent content)
        (TypeDetector.analyzeMetadata md)).maxScore) :
    (TypeDetector.detectAbstractionType
      { metadata := md, content := content }).confidence = 1 := by
  have hexp : (TypeDetector.analyzeMetadata md).explicitType = none := by
    simp only [TypeDetector.analyzeMetadata, h1, Bool.false_eq_true, if_false]
  have hone := calc_maxScore_eq_one (TypeDetector.analyzeRuleContent content)
    (TypeDetector.analyzeMetadata md) h2
  unfold TypeDetector.detectAbstractionType
  dsimp only
  rw [hexp]
  simp only [optStrTruthy, Bool.false_and, Bool.false_eq_true, if_false]
  split
  · rw [hone]; norm_num
  · exact hone

/-- Witness for C10 at a document whose only signal is `alwaysApply`. -/
theorem C10_normalized_winner_confidence_witness :
    optStrTruthy ({ id := "w10", alwaysApply := some true } : Metadata).type = false ∧
    0 < (TypeDetector.rawTypeScores (TypeDetector.analyzeRuleContent "")
        (TypeDetector.analyzeMetadata { id := "w10", alwaysApply := some true })).maxScore ∧
    (TypeDetector.detectAbstractionType
      { metadata := { id := "w10", alwaysApply := some true },
        content := "" }).confidence = 1 := by
  have h1 : optStrTruthy ({ id := "w10", alwaysApply := some true } : Metadata).type
      = false := by decide
  have h2 : 0 < (TypeDetector.rawTypeScores (TypeDetector.analyzeRuleContent "")
      (TypeDetector.analyzeMetadata { id := "w10", alwaysApply := some true })).maxScore := by
    have hca : TypeDetector.analyzeRuleContent "" =
        { skillPatterns := [], subagentPatterns := [], commandPatterns := [],
          rulePatterns := [], structuralFeatures := [], keywordDensity := [] } := by decide
    have hH : (TypeDetector.analyzeMetadata
        { id := "w10", alwaysApply := some true }).typeHints =
        ["always apply flag suggests rule"] := by decide
    have hconf : (TypeDetector.analyzeMetadata
        { id := "w10", alwaysApply := some true }).confidence = 7/10 := by
      have c1 : optStrTruthy ({ id := "w10", alwaysApply := some true } : Metadata).type
          = false := by decide
      have c2 : TypeDetector.slashTriggerCond { id := "w10", alwaysApply := some true }
          = false := by decide
      have c3 : (({ id := "w10", alwaysApply := some true } : Metadata).manual == some true)
          = false := by decide
      have c4 : (({ id := "w10", alwaysApply := some true } : Metadata).alwaysApply
          == some true) = true := by decide
      have c5 : TypeDetector.expertiseCond { id := "w10", alwaysApply := some true }
          = false := by decide
      have c6 : TypeDetector.scopeCond { id := "w10", alwaysApply := some true }
          = false := by decide
      simp only [TypeDetector.analyzeMetadata, c1, c2, c3, c4, c5, c6,
        Bool.false_eq_true, if_false, if_true]
      norm_num
    have hraw : TypeDetector.rawTypeScores (TypeDetector.analyzeRuleContent "")
        (TypeDetector.analyzeMetadata { id := "w10", alwaysApply := some true }) =
        { skill := 0, subagent := 0, command := 0, rule := 0 + 7/10 * (3/10) } := by
      have f1 : strIncludes "always apply flag suggests rule" "expertise" = false := by decide
      have f2 : strIncludes "always apply flag suggests rule" "trigger" = false := by decide
      have f3 : strIncludes "always apply flag suggests rule" "manual" = false := by decide
      have f4 : strIncludes "always apply flag suggests rule" "always apply" = true := by decide
      simp only [TypeDetector.rawTypeScores, TypeDetector.metadataBoost,
        TypeDetector.structuralBoost, TypeDetector.baseScores, hca, hH, hconf,
        List.any_cons, List.any_nil, List.contains_nil,
        TypeDetector.calculateContentScore, List.isEmpty_nil, if_true,
        f1, f2, f3, f4, Bool.false_eq_true, if_false,
        Bool.or_false, Bool.false_or, Bool.or_self]
    rw [hraw]
    unfold TypeDetector.TypeScores.maxScore
    norm_num
  exact ⟨h1, h2, C10_normalized_winner_confidence _ _ h1 h2⟩

/-- Witness for C5 at concrete arguments. -/
theorem C5_missing_metadata_or_content_witness :
    Validators.validateAnyAbstraction none (some "content") =
      .ok { valid := false,
            errors := [{ code := "MISSING_REQUIRED_FIELD",
                         message := "Metadata is required for validation",
                         field := none, severity := "error" }],
            warnings := [], suggestions := [] } ∧
    Validators.validateAnyAbstraction (some { id := "x" }) none =
      .ok { valid := false,
            errors := [{ code := "MISSING_REQUIRED_FIELD",
                         message := "Content is required for validation",
                         field := none, severity := "error" }],
            warnings := [], suggestions := [] } :=
  C5_missing_metadata_or_content (some "content") { id := "x" }

/-- Witness for C4: the universally-quantified rule-score floor applied at a
concrete score computation. -/
theorem C4_rule_fallback_witness :
    (TypeDetector.detectAbstractionType emptyDoc).type = "rule" ∧
    (3/10 : Rat) ≤ (TypeDetector.calculateTypeScores
      { skillPatterns := [], subagentPatterns := [], commandPatterns := [],
        rulePatterns := [], structuralFeatures := [], keywordDensity := [] }
      { explicitType := none, typeHints := [], confidence := 0,
        conflictingSignals := [] }).rule :=
  ⟨C4_rule_fallback.1, C4_rule_fallback.2.2 _ _⟩

/-- Witness for C6: the at-most-one-cycle-error bound applied to the empty
batch. -/
theorem C6_single_circular_dependency_witness :
    countCode "CIRCULAR_DEPENDENCY"
      (Validators.validateAbstractionGroup []).errors ≤ 1 :=
  C6_single_circular_dependency.2 []
